import Mathlib

/-!
# Verification of the TTL cache and resilient request executor

Shallow embedding of `SimpleCache` and `AdvancedApiClient.request` from the
repository's advanced API-consumption examples file, together with proofs of
the specified cache/retry/backoff properties.

Conventions of the embedding:
* Time (`Date.now()`) is passed explicitly as a `Nat` parameter `now`.
* The network is a function `net : Nat → FetchResult` giving the result of the
  `fetch` performed on the k-th attempt (0-indexed).  A timed-out attempt shows
  up as a `fetchError` (the `AbortError` raised when the timeout controller
  fires), exactly as the `try/catch` in the source observes it.
* The decoded JSON payload is a `JsonValue`: opaque except for its JavaScript
  truthiness, which is the one inspection the source performs on it — the
  cache consult reads `const cached = this.cache.get(cacheKey)` and then
  tests `if (cached)`, a truthiness test, so a stored falsy value
  (`false`, `0`, `""`, `null`) is not served and the executor re-fetches.
* The mutable cache field of the client is threaded explicitly as state.
-/

/-- Models JavaScript `String.prototype.includes`: `pat` occurs as a contiguous
substring of `s`. -/
def strContains (s pat : String) : Bool :=
  decide (pat.data <:+: s.data)

/-- A decoded JSON body (`await response.json()`), opaque to the executor
except for its JavaScript truthiness: `truthy` is false exactly for the falsy
decodable values (`false`, `0`, `""`, `null`), which the consult's
`if (cached)` test rejects. -/
structure JsonValue where
  raw : String
  truthy : Bool
deriving DecidableEq

/-- The cache store of `SimpleCache`: an association list modelling the `Map`
from keys to `{ data, timestamp }` entries, plus the configured `ttl`. -/
structure SimpleCache (T : Type) where
  cache : List (String × T × Nat)
  ttl : Nat

/-- `SimpleCache.get`: returns the stored data if present and not expired;
an entry older than `ttl` is deleted (lazy eviction) and `null` is returned.
The pair's second component is the cache state after the call. -/
def SimpleCache.get {T : Type} (c : SimpleCache T) (key : String) (now : Nat) :
    Option T × SimpleCache T :=
  match c.cache.lookup key with
  | none => (none, c)
  | some (data, timestamp) =>
    if now - timestamp > c.ttl then
      (none, { c with cache := c.cache.filter (fun e => e.1 != key) })
    else
      (some data, c)

/-- `SimpleCache.set`: inserts or overwrites the entry for `key`, stamping the
current time (`Map.set` replace semantics, keys kept unique). -/
def SimpleCache.set {T : Type} (c : SimpleCache T) (key : String) (data : T)
    (now : Nat) : SimpleCache T :=
  { c with cache := (key, data, now) :: c.cache.filter (fun e => e.1 != key) }

/-- `SimpleCache.clear`: removes all entries. -/
def SimpleCache.clear {T : Type} (c : SimpleCache T) : SimpleCache T :=
  { c with cache := [] }

/-- `SimpleCache.size`: the number of entries currently stored. -/
def SimpleCache.size {T : Type} (c : SimpleCache T) : Nat :=
  c.cache.length

/-- The result of one `fetch` call as the executor observes it: either an HTTP
response (status, statusText, decoded JSON body) or a rejection carrying an
error message (network failure, or the `AbortError` of a timeout). -/
inductive FetchResult where
  | response (status : Nat) (statusText : String) (body : JsonValue)
  | fetchError (msg : String)
deriving DecidableEq

/-- Models `Response.ok`: status in the inclusive range 200–299. -/
def responseOk (status : Nat) : Bool :=
  decide (200 ≤ status) && decide (status < 300)

/-- The message of the error thrown on a non-ok response:
`` `HTTP ${response.status}: ${response.statusText}` ``. -/
def httpErrMsg (status : Nat) (statusText : String) : String :=
  ("HTTP " ++ toString status ++ ": ") ++ statusText

/-- Outcome of one iteration's `try` body, as seen at the `catch`:
either the success path was taken (carrying the response status and decoded
body), or an error with the given message was caught. -/
inductive AttemptOutcome where
  | success (status : Nat) (body : JsonValue)
  | failure (msg : String)
deriving DecidableEq

/-- How one attempt's `FetchResult` plays out inside the `try` block:
a non-ok response raises `HTTP <status>: <statusText>`, an ok response
reaches `response.json()` and yields the body; a fetch rejection is caught
with its message. -/
def classify : FetchResult → AttemptOutcome
  | .response status statusText body =>
    if responseOk status then .success status body
    else .failure (httpErrMsg status statusText)
  | .fetchError msg => .failure msg

/-- The source's terminal-error test:
`lastError.message.includes('404') || lastError.message.includes('400')`. -/
def isTerminalMsg (m : String) : Bool :=
  strContains m "404" || strContains m "400"

/-- `true` when the attempt fails and the retry loop treats the failure as
retryable (its message triggers neither substring test). -/
def retryableFail (fr : FetchResult) : Bool :=
  match classify fr with
  | .failure m => !(isTerminalMsg m)
  | .success _ _ => false

/-- The error message an attempt fails with (meaningful when `classify` gives
`failure`). -/
def failMsg (fr : FetchResult) : String :=
  match classify fr with
  | .failure m => m
  | .success _ _ => ""

/-- The backoff delay computed after attempt `attempt` failed:
`Math.min(1000 * Math.pow(2, attempt), 10000)`. -/
def backoffDelay (attempt : Nat) : Nat :=
  min (1000 * 2 ^ attempt) 10000

/-- Message of the generic error thrown when the loop ends with no recorded
error. -/
def exhaustedMsg : String :=
  "Request failed after all retries."

/-- The options object taken by `AdvancedApiClient.request`: the `RequestInit`
fields the executor reads, plus the cache/retry controls.  `none` models an
omitted (undefined) field. -/
structure ReqOptions where
  method : Option String := none
  headers : List (String × String) := []
  body : Option String := none
  useCache : Option Bool := none
  retries : Option Nat := none

/-- Outcome of a whole `request` call: the resolved value or the thrown
error's message. -/
inductive ReqOutcome where
  | ok (value : JsonValue)
  | err (msg : String)
deriving DecidableEq

/-- Observable result of one `request` call: outcome, number of network
attempts performed, the backoff delays awaited (in order), and the final
cache state. -/
structure ExecResult where
  outcome : ReqOutcome
  attempts : Nat
  delays : List Nat
  finalCache : SimpleCache JsonValue

/-- The client's configuration fields. -/
structure AdvancedApiClient where
  baseUrl : String
  defaultTimeout : Nat
  maxRetries : Nat

/-- Constructing a client giving only `baseUrl`: the constructor's default
arguments are `timeout = 10000` and `maxRetries = 3`. -/
def AdvancedApiClient.mkDefault (baseUrl : String) : AdvancedApiClient :=
  { baseUrl := baseUrl, defaultTimeout := 10000, maxRetries := 3 }

/-- Models `JSON.stringify(fetchOptions)`: a deterministic serialization of
the request options left after destructuring away `useCache` and `retries`
(method, headers, body). -/
def serializeFetchOptions (o : ReqOptions) : String :=
  (match o.method with
   | none => ""
   | some m => "method=" ++ m) ++ "|" ++
  String.intercalate "," (o.headers.map (fun h => h.1 ++ ":" ++ h.2)) ++ "|" ++
  (match o.body with
   | none => ""
   | some b => b)

/-- The cache key: `` `${url}:${JSON.stringify(fetchOptions)}` `` with
`url = baseUrl + endpoint`. -/
def cacheKeyOf (client : AdvancedApiClient) (endpoint : String)
    (opts : ReqOptions) : String :=
  (client.baseUrl ++ endpoint) ++ ":" ++ serializeFetchOptions opts

/-- The retry loop of `request` (`for attempt = 0; attempt <= retries; ...`).
`fuel` is the number of loop iterations still permitted
(`retries + 1 - attempt` at every reachable call); when it reaches zero the
loop has exited and `lastError || Error('Request failed after all retries.')`
is thrown.  Each iteration performs one network attempt; a success stores the
body in the cache when `useCache && status == 200` and returns it; a caught
error whose message contains `404` or `400` breaks out and is thrown; a
retryable error waits `backoffDelay attempt` when `attempt < retries` and
continues. -/
def requestLoop (net : Nat → FetchResult) (useCache : Bool) (key : String)
    (retries now : Nat) :
    Nat → Nat → Option String → SimpleCache JsonValue → ExecResult
  | 0, _, lastError, cache =>
    { outcome := .err (lastError.getD exhaustedMsg), attempts := 0,
      delays := [], finalCache := cache }
  | fuel + 1, attempt, _, cache =>
    match classify (net attempt) with
    | .success status body =>
      let cache' := if useCache && status == 200 then
          SimpleCache.set cache key body now
        else cache
      { outcome := .ok body, attempts := 1, delays := [], finalCache := cache' }
    | .failure msg =>
      if isTerminalMsg msg then
        { outcome := .err msg, attempts := 1, delays := [], finalCache := cache }
      else if attempt < retries then
        let r := requestLoop net useCache key retries now fuel (attempt + 1)
          (some msg) cache
        { outcome := r.outcome, attempts := r.attempts + 1,
          delays := backoffDelay attempt :: r.delays, finalCache := r.finalCache }
      else
        let r := requestLoop net useCache key retries now fuel (attempt + 1)
          (some msg) cache
        { outcome := r.outcome, attempts := r.attempts + 1,
          delays := r.delays, finalCache := r.finalCache }

/-- `AdvancedApiClient.request`: resolves the option defaults
(`useCache = true`, `retries = this.maxRetries`), computes the cache key,
consults the cache for non-POST requests — the consult is
`const cached = this.cache.get(cacheKey); if (cached) return cached`, a
JavaScript truthiness test, so a stored falsy value (like a `null` miss) is
not served — and otherwise runs the retry loop starting at attempt 0 with no
recorded error. -/
def AdvancedApiClient.request (client : AdvancedApiClient) (endpoint : String)
    (opts : ReqOptions) (net : Nat → FetchResult) (now : Nat)
    (cache : SimpleCache JsonValue) : ExecResult :=
  let useCache := opts.useCache.getD true
  let retries := opts.retries.getD client.maxRetries
  let key := cacheKeyOf client endpoint opts
  if useCache && opts.method != some "POST" then
    match SimpleCache.get cache key now with
    | (some v, cache') =>
      if v.truthy then
        { outcome := .ok v, attempts := 0, delays := [], finalCache := cache' }
      else
        requestLoop net useCache key retries now (retries + 1) 0 none cache'
    | (none, cache') =>
      requestLoop net useCache key retries now (retries + 1) 0 none cache'
  else
    requestLoop net useCache key retries now (retries + 1) 0 none cache

/-! ## Helper lemmas -/

/-- Containment in a string survives appending on the right. -/
theorem strContains_append_left (p st pat : String)
    (h : strContains p pat = true) : strContains (p ++ st) pat = true := by
  unfold strContains at h ⊢
  rw [decide_eq_true_eq] at h ⊢
  rw [String.data_append]
  obtain ⟨s, t, hst⟩ := h
  exact ⟨s, t ++ st.data, by rw [← hst]; simp⟩

/-- The message raised for a 404 response triggers the terminal test,
whatever the status text. -/
theorem isTerminalMsg_http404 (st : String) :
    isTerminalMsg (httpErrMsg 404 st) = true := by
  unfold isTerminalMsg httpErrMsg
  have h : strContains ("HTTP " ++ toString 404 ++ ": ") "404" = true := by decide
  simp [strContains_append_left _ st _ h]

/-- The message raised for a 400 response triggers the terminal test,
whatever the status text. -/
theorem isTerminalMsg_http400 (st : String) :
    isTerminalMsg (httpErrMsg 400 st) = true := by
  unfold isTerminalMsg httpErrMsg
  have h : strContains ("HTTP " ++ toString 400 ++ ": ") "400" = true := by decide
  simp [strContains_append_left _ st _ h]

/-- A 404 response is classified as a caught failure with the HTTP error
message. -/
theorem classify_404 (st : String) (b : JsonValue) :
    classify (.response 404 st b) = .failure (httpErrMsg 404 st) := by
  simp [classify, responseOk]

/-- One-step unfolding of the loop at fuel zero (loop condition exhausted):
`lastError || Error('Request failed after all retries.')` is thrown. -/
theorem requestLoop_zero (net : Nat → FetchResult) (useCache : Bool)
    (key : String) (retries now attempt : Nat) (le : Option String)
    (cache : SimpleCache JsonValue) :
    requestLoop net useCache key retries now 0 attempt le cache =
      { outcome := .err (le.getD exhaustedMsg), attempts := 0, delays := [],
        finalCache := cache } := rfl

/-- One-step unfolding of the loop for a retryable failure at an attempt with
attempts remaining: a backoff delay is recorded and the loop continues. -/
theorem requestLoop_retry_step (net : Nat → FetchResult) (useCache : Bool)
    (key : String) (retries now fuel attempt : Nat) (le : Option String)
    (cache : SimpleCache JsonValue) (m : String)
    (hc : classify (net attempt) = .failure m) (ht : isTerminalMsg m = false)
    (hlt : attempt < retries) :
    requestLoop net useCache key retries now (fuel + 1) attempt le cache =
      { outcome := (requestLoop net useCache key retries now fuel (attempt + 1)
          (some m) cache).outcome,
        attempts := (requestLoop net useCache key retries now fuel (attempt + 1)
          (some m) cache).attempts + 1,
        delays := backoffDelay attempt :: (requestLoop net useCache key retries
          now fuel (attempt + 1) (some m) cache).delays,
        finalCache := (requestLoop net useCache key retries now fuel
          (attempt + 1) (some m) cache).finalCache } := by
  conv_lhs => rw [requestLoop]
  rw [hc]
  dsimp only
  simp [ht, hlt]

/-- One-step unfolding of the loop for a retryable failure on the last allowed
attempt: no backoff is recorded and the loop exits with the error recorded. -/
theorem requestLoop_last_step (net : Nat → FetchResult) (useCache : Bool)
    (key : String) (retries now fuel attempt : Nat) (le : Option String)
    (cache : SimpleCache JsonValue) (m : String)
    (hc : classify (net attempt) = .failure m) (ht : isTerminalMsg m = false)
    (hge : ¬ attempt < retries) :
    requestLoop net useCache key retries now (fuel + 1) attempt le cache =
      { outcome := (requestLoop net useCache key retries now fuel (attempt + 1)
          (some m) cache).outcome,
        attempts := (requestLoop net useCache key retries now fuel (attempt + 1)
          (some m) cache).attempts + 1,
        delays := (requestLoop net useCache key retries now fuel (attempt + 1)
          (some m) cache).delays,
        finalCache := (requestLoop net useCache key retries now fuel
          (attempt + 1) (some m) cache).finalCache } := by
  conv_lhs => rw [requestLoop]
  rw [hc]
  dsimp only
  simp [ht, hge]

/-- If every attempt from `attempt` through `retries` fails retryably, the
loop performs all of them, schedules a backoff after each but the last, and
ends by throwing the last attempt's error. -/
theorem requestLoop_all_fail (net : Nat → FetchResult) (useCache : Bool)
    (key : String) (retries now : Nat) :
    ∀ (f attempt : Nat) (le : Option String) (cache : SimpleCache JsonValue),
      f + 1 + attempt = retries + 1 →
      (∀ k, attempt ≤ k → k ≤ retries → retryableFail (net k) = true) →
      requestLoop net useCache key retries now (f + 1) attempt le cache =
        { outcome := .err (failMsg (net retries)), attempts := f + 1,
          delays := (List.range' attempt f).map backoffDelay,
          finalCache := cache } := by
  intro f
  induction f with
  | zero =>
    intro attempt le cache hinv hfail
    have ha : attempt = retries := by omega
    have hr := hfail attempt le_rfl (by omega)
    unfold retryableFail at hr
    cases hc : classify (net attempt) with
    | success s b => rw [hc] at hr; simp at hr
    | failure m =>
      rw [hc] at hr
      simp only [Bool.not_eq_true'] at hr
      rw [requestLoop_last_step net useCache key retries now 0 attempt le cache
        m hc hr (by omega), requestLoop_zero]
      have hm : failMsg (net retries) = m := by
        unfold failMsg; rw [← ha, hc]
      rw [hm]
      simp [List.range']
  | succ f ih =>
    intro attempt le cache hinv hfail
    have hlt : attempt < retries := by omega
    have hr := hfail attempt le_rfl (by omega)
    unfold retryableFail at hr
    cases hc : classify (net attempt) with
    | success s b => rw [hc] at hr; simp at hr
    | failure m =>
      rw [hc] at hr
      simp only [Bool.not_eq_true'] at hr
      have hrec := ih (attempt + 1) (some m) cache (by omega)
        (fun k hk1 hk2 => hfail k (by omega) hk2)
      rw [requestLoop_retry_step net useCache key retries now (f + 1) attempt
        le cache m hc hr hlt, hrec]
      simp [List.range']

/-- An attempt caught with a terminal message breaks the loop at once: one
attempt, no backoff, the error is thrown. -/
theorem requestLoop_terminal (net : Nat → FetchResult) (useCache : Bool)
    (key : String) (retries now fuel attempt : Nat) (le : Option String)
    (cache : SimpleCache JsonValue) (m : String)
    (hc : classify (net attempt) = .failure m) (ht : isTerminalMsg m = true) :
    requestLoop net useCache key retries now (fuel + 1) attempt le cache =
      { outcome := .err m, attempts := 1, delays := [], finalCache := cache } := by
  simp [requestLoop, hc, ht]

/-- A successful attempt returns the decoded body at once, writing it to the
cache exactly when `useCache && status == 200`. -/
theorem requestLoop_success (net : Nat → FetchResult) (useCache : Bool)
    (key : String) (retries now fuel attempt : Nat) (le : Option String)
    (cache : SimpleCache JsonValue) (status : Nat) (body : JsonValue)
    (hc : classify (net attempt) = .success status body) :
    requestLoop net useCache key retries now (fuel + 1) attempt le cache =
      { outcome := .ok body, attempts := 1, delays := [],
        finalCache := if useCache && status == 200 then
            SimpleCache.set cache key body now
          else cache } := by
  simp [requestLoop, hc]

/-- A `request` whose cache consult misses and whose every attempt fails
retryably performs all `retries + 1` attempts, waits the full backoff
schedule, and throws the last attempt's error, leaving the cache as the
consult left it. -/
theorem request_all_fail (client : AdvancedApiClient) (endpoint : String)
    (opts : ReqOptions) (net : Nat → FetchResult) (now : Nat)
    (cache : SimpleCache JsonValue)
    (hmiss : (SimpleCache.get cache (cacheKeyOf client endpoint opts) now).1 = none)
    (hfail : ∀ k, k ≤ opts.retries.getD client.maxRetries →
        retryableFail (net k) = true) :
    client.request endpoint opts net now cache =
      { outcome := .err (failMsg (net (opts.retries.getD client.maxRetries))),
        attempts := opts.retries.getD client.maxRetries + 1,
        delays := (List.range' 0
          (opts.retries.getD client.maxRetries)).map backoffDelay,
        finalCache :=
          if (opts.useCache.getD true && opts.method != some "POST") = true
          then (SimpleCache.get cache (cacheKeyOf client endpoint opts) now).2
          else cache } := by
  have hloop := fun (c : SimpleCache JsonValue) =>
    requestLoop_all_fail net (opts.useCache.getD true)
      (cacheKeyOf client endpoint opts) (opts.retries.getD client.maxRetries)
      now (opts.retries.getD client.maxRetries) 0 none c (by omega)
      (fun k _ hk2 => hfail k hk2)
  unfold AdvancedApiClient.request
  dsimp only
  split
  next hcond =>
    split
    next v cache' heq =>
      rw [heq] at hmiss
      simp at hmiss
    next cache' heq =>
      rw [hloop cache']
      simp [heq, hcond]
  next _hcond =>
    rw [hloop cache]

/-- A `request` whose cache consult misses and whose first attempt is caught
with a terminal message performs exactly one attempt, no backoff, and throws
that error. -/
theorem request_first_terminal (client : AdvancedApiClient) (endpoint : String)
    (opts : ReqOptions) (net : Nat → FetchResult) (now : Nat)
    (cache : SimpleCache JsonValue) (m : String)
    (hmiss : (SimpleCache.get cache (cacheKeyOf client endpoint opts) now).1 = none)
    (hc : classify (net 0) = .failure m) (ht : isTerminalMsg m = true) :
    client.request endpoint opts net now cache =
      { outcome := .err m, attempts := 1, delays := [],
        finalCache :=
          if (opts.useCache.getD true && opts.method != some "POST") = true
          then (SimpleCache.get cache (cacheKeyOf client endpoint opts) now).2
          else cache } := by
  have hloop := fun (c : SimpleCache JsonValue) =>
    requestLoop_terminal net (opts.useCache.getD true)
      (cacheKeyOf client endpoint opts) (opts.retries.getD client.maxRetries)
      now (opts.retries.getD client.maxRetries) 0 none c m hc ht
  unfold AdvancedApiClient.request
  dsimp only
  split
  next hcond =>
    split
    next v cache' heq =>
      rw [heq] at hmiss
      simp at hmiss
    next cache' heq =>
      rw [hloop cache']
      simp [heq]
  next _hcond =>
    rw [hloop cache]

/-- A `request` whose cache consult misses and whose first attempt succeeds
performs exactly one attempt and returns the decoded body; the body is written
to the cache exactly when `useCache` resolved true and the status is exactly
200 (the request method plays no part in the write decision). -/
theorem request_first_success (client : AdvancedApiClient) (endpoint : String)
    (opts : ReqOptions) (net : Nat → FetchResult) (now : Nat)
    (cache : SimpleCache JsonValue) (status : Nat) (body : JsonValue)
    (hmiss : (SimpleCache.get cache (cacheKeyOf client endpoint opts) now).1 = none)
    (hc : classify (net 0) = .success status body) :
    client.request endpoint opts net now cache =
      { outcome := .ok body, attempts := 1, delays := [],
        finalCache :=
          if (opts.useCache.getD true && status == 200) = true then
            SimpleCache.set
              (if (opts.useCache.getD true && opts.method != some "POST") = true
               then (SimpleCache.get cache (cacheKeyOf client endpoint opts) now).2
               else cache)
              (cacheKeyOf client endpoint opts) body now
          else
            (if (opts.useCache.getD true && opts.method != some "POST") = true
             then (SimpleCache.get cache (cacheKeyOf client endpoint opts) now).2
             else cache) } := by
  have hloop := fun (c : SimpleCache JsonValue) =>
    requestLoop_success net (opts.useCache.getD true)
      (cacheKeyOf client endpoint opts) (opts.retries.getD client.maxRetries)
      now (opts.retries.getD client.maxRetries) 0 none c status body hc
  unfold AdvancedApiClient.request
  dsimp only
  split
  next hcond =>
    split
    next v cache' heq =>
      rw [heq] at hmiss
      simp at hmiss
    next cache' heq =>
      rw [hloop cache']
      simp [heq]
  next _hcond =>
    rw [hloop cache]

/-- A `request` with caching in force whose consult finds a truthy stored
value returns it with zero network attempts and no backoff. -/
theorem request_cache_hit (client : AdvancedApiClient) (endpoint : String)
    (opts : ReqOptions) (net : Nat → FetchResult) (now : Nat)
    (cache cache' : SimpleCache JsonValue) (v : JsonValue)
    (hu : opts.useCache.getD true = true) (hm : opts.method ≠ some "POST")
    (hget : SimpleCache.get cache (cacheKeyOf client endpoint opts) now =
      (some v, cache'))
    (hv : v.truthy = true) :
    client.request endpoint opts net now cache =
      { outcome := .ok v, attempts := 0, delays := [], finalCache := cache' } := by
  have hcond : (opts.useCache.getD true && opts.method != some "POST") = true := by
    simp [hu, bne_iff_ne, hm]
  unfold AdvancedApiClient.request
  dsimp only
  rw [if_pos hcond, hget]
  dsimp only
  rw [if_pos hv]

/-- A consult that finds a stored but falsy value does not serve it: the
`if (cached)` truthiness test fails and the executor proceeds to the network;
here the first attempt succeeds, so exactly one network attempt happens and
its body is returned (and written back when `useCache && status == 200`). -/
theorem request_falsy_hit (client : AdvancedApiClient) (endpoint : String)
    (opts : ReqOptions) (net : Nat → FetchResult) (now : Nat)
    (cache cache' : SimpleCache JsonValue) (v : JsonValue) (status : Nat)
    (body : JsonValue)
    (hu : opts.useCache.getD true = true) (hm : opts.method ≠ some "POST")
    (hget : SimpleCache.get cache (cacheKeyOf client endpoint opts) now =
      (some v, cache'))
    (hv : v.truthy = false)
    (hc : classify (net 0) = .success status body) :
    client.request endpoint opts net now cache =
      { outcome := .ok body, attempts := 1, delays := [],
        finalCache :=
          if (opts.useCache.getD true && status == 200) = true
          then SimpleCache.set cache' (cacheKeyOf client endpoint opts) body now
          else cache' } := by
  have hcond : (opts.useCache.getD true && opts.method != some "POST") = true := by
    simp [hu, bne_iff_ne, hm]
  have hnv : ¬ v.truthy = true := by simp [hv]
  unfold AdvancedApiClient.request
  dsimp only
  rw [if_pos hcond, hget]
  dsimp only
  rw [if_neg hnv, requestLoop_success net (opts.useCache.getD true)
    (cacheKeyOf client endpoint opts) (opts.retries.getD client.maxRetries)
    now (opts.retries.getD client.maxRetries) 0 none cache' status body hc]

/-- Looking up a key in a list from which it has just been filtered out finds
nothing. -/
theorem lookup_filter_ne_self {α : Type} (l : List (String × α)) (k : String) :
    (l.filter (fun e => e.1 != k)).lookup k = none := by
  induction l with
  | nil => rfl
  | cons a t ih =>
    by_cases h : a.1 = k
    · simp [List.filter_cons, h, ih]
    · have hk : (k == a.1) = false := beq_eq_false_iff_ne.mpr (fun he => h he.symm)
      simp [List.filter_cons, List.lookup, bne_iff_ne, h, hk, ih]

/-- Reading a freshly set key within `ttl` of the write returns the stored
value and leaves the cache unchanged. -/
theorem SimpleCache.get_set_fresh {T : Type} (c : SimpleCache T) (k : String)
    (v : T) (t t' : Nat) (h : t' - t ≤ c.ttl) :
    SimpleCache.get (SimpleCache.set c k v t) k t' =
      (some v, SimpleCache.set c k v t) := by
  unfold SimpleCache.get SimpleCache.set
  simp [List.lookup]
  omega

/-- Reading a key whose entry's age exceeds `ttl` returns absent and evicts:
any later read of that key from the returned cache is also absent. -/
theorem SimpleCache.get_set_expired {T : Type} (c : SimpleCache T) (k : String)
    (v : T) (t t' : Nat) (h : c.ttl < t' - t) :
    (SimpleCache.get (SimpleCache.set c k v t) k t').1 = none ∧
    ∀ t'' : Nat,
      (SimpleCache.get ((SimpleCache.get (SimpleCache.set c k v t) k t').2) k t'').1
        = none := by
  unfold SimpleCache.get SimpleCache.set
  simp [List.lookup]
  rw [if_pos (by omega)]
  simp [lookup_filter_ne_self]

/-- After `clear`, any `get` returns absent and leaves the cache empty. -/
theorem SimpleCache.get_clear {T : Type} (c : SimpleCache T) (k : String)
    (now : Nat) :
    SimpleCache.get (SimpleCache.clear c) k now = (none, SimpleCache.clear c) := rfl

/-! ## Claim theorems -/

/-- C1: with retry budget `r = retries ?? maxRetries`, a `request` whose every
attempt fails with a retryable error (e.g. every attempt times out) performs
exactly `r + 1` attempts and then fails with the error recorded on the most
recent attempt; the generic exhausted-retries error is not reached on this
path. -/
theorem execute_all_retryable_exhausts (client : AdvancedApiClient)
    (endpoint : String) (opts : ReqOptions) (net : Nat → FetchResult)
    (now : Nat) (cache : SimpleCache JsonValue)
    (hmiss : (SimpleCache.get cache (cacheKeyOf client endpoint opts) now).1 = none)
    (hfail : ∀ k, k ≤ opts.retries.getD client.maxRetries →
        retryableFail (net k) = true) :
    (client.request endpoint opts net now cache).attempts =
        opts.retries.getD client.maxRetries + 1 ∧
    (client.request endpoint opts net now cache).outcome =
        .err (failMsg (net (opts.retries.getD client.maxRetries))) := by
  rw [request_all_fail client endpoint opts net now cache hmiss hfail]
  exact ⟨rfl, rfl⟩

/-- Witness for C1: a bare call against a network where every attempt times
out makes 4 attempts and fails with the abort error. -/
theorem execute_all_retryable_exhausts_witness :
    ((AdvancedApiClient.mkDefault "https://pokeapi.co/api/v2").request
        "/pokemon/ditto" {} (fun _ => .fetchError "The operation was aborted")
        0 ⟨[], 300000⟩).attempts = 4 ∧
    ((AdvancedApiClient.mkDefault "https://pokeapi.co/api/v2").request
        "/pokemon/ditto" {} (fun _ => .fetchError "The operation was aborted")
        0 ⟨[], 300000⟩).outcome = .err "The operation was aborted" := by
  have h := execute_all_retryable_exhausts
    (AdvancedApiClient.mkDefault "https://pokeapi.co/api/v2") "/pokemon/ditto"
    {} (fun _ => .fetchError "The operation was aborted") 0 ⟨[], 300000⟩
    rfl (fun _ _ => (by decide :
      retryableFail (FetchResult.fetchError "The operation was aborted") = true))
  exact ⟨h.1, h.2⟩

/-- C3: in a run of retryable failures the scheduled delays are exactly
`min(1000 * 2^k, 10000)` for `k = 0, ..., r-1` — strictly increasing up to
attempt index 3 and constant 10000 from index 4 on — and no delay is
scheduled after the final allowed attempt (`r` delays for `r + 1` attempts). -/
theorem execute_backoff_schedule (client : AdvancedApiClient)
    (endpoint : String) (opts : ReqOptions) (net : Nat → FetchResult)
    (now : Nat) (cache : SimpleCache JsonValue)
    (hmiss : (SimpleCache.get cache (cacheKeyOf client endpoint opts) now).1 = none)
    (hfail : ∀ k, k ≤ opts.retries.getD client.maxRetries →
        retryableFail (net k) = true) :
    (client.request endpoint opts net now cache).delays =
        (List.range (opts.retries.getD client.maxRetries)).map backoffDelay ∧
    (∀ k, backoffDelay k = min (1000 * 2 ^ k) 10000) ∧
    (∀ k, k ≤ 3 → backoffDelay k < backoffDelay (k + 1)) ∧
    (∀ k, 4 ≤ k → backoffDelay k = 10000) ∧
    (client.request endpoint opts net now cache).delays.length =
        opts.retries.getD client.maxRetries ∧
    (client.request endpoint opts net now cache).attempts =
        opts.retries.getD client.maxRetries + 1 := by
  rw [request_all_fail client endpoint opts net now cache hmiss hfail]
  refine ⟨by rw [List.range_eq_range'], fun k => rfl, ?_, ?_, ?_, rfl⟩
  · intro k hk
    interval_cases k <;> decide
  · intro k hk
    unfold backoffDelay
    have h16 : (2 : Nat) ^ 4 ≤ 2 ^ k := Nat.pow_le_pow_right (by norm_num) hk
    have hle : (10000 : Nat) ≤ 1000 * 2 ^ k :=
      calc (10000 : Nat) ≤ 1000 * 2 ^ 4 := by norm_num
      _ ≤ 1000 * 2 ^ k := Nat.mul_le_mul (Nat.le_refl 1000) h16
    exact min_eq_right hle
  · simp

/-- Witness for C3: a bare all-timeout run waits 1000, 2000, 4000; the cap
holds from attempt index 4. -/
theorem execute_backoff_schedule_witness :
    ((AdvancedApiClient.mkDefault "https://pokeapi.co/api/v2").request
        "/pokemon/ditto" {} (fun _ => .fetchError "The operation was aborted")
        0 ⟨[], 300000⟩).delays = [1000, 2000, 4000] ∧
    backoffDelay 3 < backoffDelay 4 ∧ backoffDelay 4 = 10000 ∧
    backoffDelay 5 = 10000 := by
  have h := execute_backoff_schedule
    (AdvancedApiClient.mkDefault "https://pokeapi.co/api/v2") "/pokemon/ditto"
    {} (fun _ => .fetchError "The operation was aborted") 0 ⟨[], 300000⟩
    rfl (fun _ _ => (by decide :
      retryableFail (FetchResult.fetchError "The operation was aborted") = true))
  exact ⟨h.1, h.2.2.1 3 le_rfl, h.2.2.2.1 4 le_rfl, h.2.2.2.1 5 (by norm_num)⟩

/-- C6: immediately after `set k v` at time `t`, `get k` returns `v` at every
time within `ttl` of `t`; once the age exceeds `ttl`, `get k` returns absent
and evicts the entry, and every later `get k` on the evicted cache also
returns absent; an entry is never returned once its age exceeds `ttl`. -/
theorem cache_set_get_ttl {T : Type} (c : SimpleCache T) (k : String) (v : T)
    (t t₁ t₂ t₃ : Nat) (h₁ : t₁ - t ≤ c.ttl) (h₂ : c.ttl < t₂ - t) :
    SimpleCache.get (SimpleCache.set c k v t) k t₁ =
      (some v, SimpleCache.set c k v t) ∧
    (SimpleCache.get (SimpleCache.set c k v t) k t₂).1 = none ∧
    (SimpleCache.get ((SimpleCache.get (SimpleCache.set c k v t) k t₂).2) k t₃).1
      = none := by
  refine ⟨SimpleCache.get_set_fresh c k v t t₁ h₁, ?_, ?_⟩
  · exact (SimpleCache.get_set_expired c k v t t₂ h₂).1
  · exact (SimpleCache.get_set_expired c k v t t₂ h₂).2 t₃

/-- Witness for C6 with `ttl = 10`: a read at age 10 still hits, a read at
age 11 evicts, a later read misses. -/
theorem cache_set_get_ttl_witness :
    SimpleCache.get (SimpleCache.set (⟨[], 10⟩ : SimpleCache String) "a" "x" 0)
        "a" 10 =
      (some "x", SimpleCache.set (⟨[], 10⟩ : SimpleCache String) "a" "x" 0) ∧
    (SimpleCache.get (SimpleCache.set (⟨[], 10⟩ : SimpleCache String) "a" "x" 0)
        "a" 11).1 = none ∧
    (SimpleCache.get ((SimpleCache.get
        (SimpleCache.set (⟨[], 10⟩ : SimpleCache String) "a" "x" 0) "a" 11).2)
        "a" 99).1 = none := by
  exact cache_set_get_ttl (⟨[], 10⟩ : SimpleCache String) "a" "x" 0 10 11 99
    (by decide) (by decide)

/-- C7: after `clear()`, every subsequent `get`, for every key and at every
time, returns absent regardless of the entries and TTL state before; the
operation is total and leaves the empty cache. -/
theorem cache_clear_get_absent {T : Type} (c : SimpleCache T) (k : String)
    (now : Nat) :
    SimpleCache.get (SimpleCache.clear c) k now = (none, SimpleCache.clear c) :=
  rfl

/-- C2 counterexample: a network-kind failure (not an HTTP 400/404 status
error) whose message happens to contain "404" is NOT retried: with a
configured budget of 3 retries the call performs one attempt only,
contradicting "every other error kind is retried up to the configured
limit". -/
theorem network_error_with_404_text_not_retried :
    ((AdvancedApiClient.mkDefault "https://pokeapi.co").request "/p"
        { retries := some 3 } (fun _ => .fetchError "ECONNRESET tunnel-404")
        0 ⟨[], 300000⟩).attempts = 1 ∧
    ((AdvancedApiClient.mkDefault "https://pokeapi.co").request "/p"
        { retries := some 3 } (fun _ => .fetchError "ECONNRESET tunnel-404")
        0 ⟨[], 300000⟩).outcome = .err "ECONNRESET tunnel-404" := by
  exact ⟨by decide, by decide⟩

/-- C2 (amended): a first-attempt 404 response makes exactly one attempt, no
backoff, and propagates the `HTTP 404` error; the errors raised for 400 and
404 responses are always terminal; and an error whose message does not
contain "404" or "400" is retried up to the configured limit (the original
claim's "every other error kind is retried" fails for errors whose message
merely contains those digits). -/
theorem status_404_terminal_others_retried (client : AdvancedApiClient)
    (endpoint : String) (opts : ReqOptions) (net netR : Nat → FetchResult)
    (now : Nat) (cache : SimpleCache JsonValue) (st : String) (b : JsonValue)
    (hmiss : (SimpleCache.get cache (cacheKeyOf client endpoint opts) now).1 = none)
    (h404 : net 0 = .response 404 st b)
    (hfail : ∀ k, k ≤ opts.retries.getD client.maxRetries →
        retryableFail (netR k) = true) :
    (client.request endpoint opts net now cache).attempts = 1 ∧
    (client.request endpoint opts net now cache).outcome =
        .err (httpErrMsg 404 st) ∧
    (client.request endpoint opts net now cache).delays = [] ∧
    (∀ st', isTerminalMsg (httpErrMsg 404 st') = true) ∧
    (∀ st', isTerminalMsg (httpErrMsg 400 st') = true) ∧
    (client.request endpoint opts netR now cache).attempts =
        opts.retries.getD client.maxRetries + 1 := by
  have hterm := request_first_terminal client endpoint opts net now cache
    (httpErrMsg 404 st) hmiss (by rw [h404]; exact classify_404 st b)
    (isTerminalMsg_http404 st)
  have hall := request_all_fail client endpoint opts netR now cache hmiss hfail
  exact ⟨by rw [hterm], by rw [hterm], by rw [hterm],
    fun st' => isTerminalMsg_http404 st', fun st' => isTerminalMsg_http400 st',
    by rw [hall]⟩

/-- Witness for the amended C2: a concrete 404 first attempt stops after one
attempt with the 404 error; a clean-message network failure is retried to
exhaustion. -/
theorem status_404_terminal_others_retried_witness :
    ((AdvancedApiClient.mkDefault "https://pokeapi.co").request "/pokemon/zzz"
        {} (fun _ => .response 404 "Not Found" ⟨"", false⟩) 0 ⟨[], 300000⟩).attempts = 1 ∧
    ((AdvancedApiClient.mkDefault "https://pokeapi.co").request "/pokemon/zzz"
        {} (fun _ => .response 404 "Not Found" ⟨"", false⟩) 0 ⟨[], 300000⟩).outcome =
      .err "HTTP 404: Not Found" ∧
    isTerminalMsg (httpErrMsg 404 "Not Found") = true ∧
    isTerminalMsg (httpErrMsg 400 "Bad Request") = true ∧
    ((AdvancedApiClient.mkDefault "https://pokeapi.co").request "/pokemon/zzz"
        {} (fun _ => .fetchError "connection refused") 0 ⟨[], 300000⟩).attempts
      = 4 := by
  have h := status_404_terminal_others_retried
    (AdvancedApiClient.mkDefault "https://pokeapi.co") "/pokemon/zzz" {}
    (fun _ => .response 404 "Not Found" ⟨"", false⟩)
    (fun _ => .fetchError "connection refused") 0 ⟨[], 300000⟩ "Not Found" ⟨"", false⟩
    rfl rfl (fun _ _ => (by decide :
      retryableFail (FetchResult.fetchError "connection refused") = true))
  exact ⟨h.1, h.2.1, h.2.2.2.1 "Not Found", h.2.2.2.2.1 "Bad Request",
    h.2.2.2.2.2⟩

/-- C9: an attempt's failure is terminal exactly when its message contains
"404" or "400" as a substring; any failure whose message contains one of
them — here a network-kind error — stops the loop at once and is propagated,
while failures without those substrings are always retried up to the
budget. -/
theorem terminal_classification_is_textual (client : AdvancedApiClient)
    (endpoint : String) (opts : ReqOptions) (net netR : Nat → FetchResult)
    (now : Nat) (cache : SimpleCache JsonValue) (m : String)
    (hmiss : (SimpleCache.get cache (cacheKeyOf client endpoint opts) now).1 = none)
    (hm : net 0 = .fetchError m) (hterm : isTerminalMsg m = true)
    (hfail : ∀ k, k ≤ opts.retries.getD client.maxRetries →
        retryableFail (netR k) = true) :
    (∀ m', isTerminalMsg m' = (strContains m' "404" || strContains m' "400")) ∧
    (client.request endpoint opts net now cache).attempts = 1 ∧
    (client.request endpoint opts net now cache).outcome = .err m ∧
    (client.request endpoint opts netR now cache).attempts =
        opts.retries.getD client.maxRetries + 1 := by
  have hterm' := request_first_terminal client endpoint opts net now cache m
    hmiss (by rw [hm]; rfl) hterm
  have hall := request_all_fail client endpoint opts netR now cache hmiss hfail
  exact ⟨fun m' => rfl, by rw [hterm'], by rw [hterm'], by rw [hall]⟩

/-- Witness for C9: a network error reading "dns 404 fail" stops the loop on
attempt one; "dns failure" is retried four times. -/
theorem terminal_classification_is_textual_witness :
    isTerminalMsg "dns 404 fail" = (strContains "dns 404 fail" "404" ||
      strContains "dns 404 fail" "400") ∧
    ((AdvancedApiClient.mkDefault "https://pokeapi.co").request "/x" {}
        (fun _ => .fetchError "dns 404 fail") 0 ⟨[], 300000⟩).attempts = 1 ∧
    ((AdvancedApiClient.mkDefault "https://pokeapi.co").request "/x" {}
        (fun _ => .fetchError "dns 404 fail") 0 ⟨[], 300000⟩).outcome =
      .err "dns 404 fail" ∧
    ((AdvancedApiClient.mkDefault "https://pokeapi.co").request "/x" {}
        (fun _ => .fetchError "dns failure") 0 ⟨[], 300000⟩).attempts = 4 := by
  have h := terminal_classification_is_textual
    (AdvancedApiClient.mkDefault "https://pokeapi.co") "/x" {}
    (fun _ => .fetchError "dns 404 fail") (fun _ => .fetchError "dns failure")
    0 ⟨[], 300000⟩ "dns 404 fail" rfl rfl (by decide) (fun _ _ => (by decide :
      retryableFail (FetchResult.fetchError "dns failure") = true))
  exact ⟨h.1 "dns 404 fail", h.2.1, h.2.2.1, h.2.2.2⟩

/-- C10: omitting `useCache` behaves exactly as passing `useCache = true`;
omitting `retries` makes the budget the client's `maxRetries`; `maxRetries`
defaults to 3 at construction, so a bare call performs up to 4 attempts. -/
theorem request_option_defaults (client : AdvancedApiClient)
    (endpoint endpoint2 : String) (opts : ReqOptions)
    (net net2 : Nat → FetchResult) (now now2 : Nat)
    (cache cache2 : SimpleCache JsonValue) (b : String)
    (hret : opts.retries = none)
    (hmiss : (SimpleCache.get cache (cacheKeyOf client endpoint opts) now).1 = none)
    (hfail : ∀ k, k ≤ client.maxRetries → retryableFail (net k) = true)
    (hmiss2 : (SimpleCache.get cache2
      (cacheKeyOf (AdvancedApiClient.mkDefault b) endpoint2 {}) now2).1 = none)
    (hfail2 : ∀ k, k ≤ 3 → retryableFail (net2 k) = true) :
    client.request endpoint { opts with useCache := none } net now cache =
      client.request endpoint { opts with useCache := some true } net now cache ∧
    (client.request endpoint opts net now cache).attempts =
      client.maxRetries + 1 ∧
    (AdvancedApiClient.mkDefault b).maxRetries = 3 ∧
    ((AdvancedApiClient.mkDefault b).request endpoint2 {} net2 now2
      cache2).attempts = 3 + 1 := by
  refine ⟨by cases opts; rfl, ?_, rfl, ?_⟩
  · have h := request_all_fail client endpoint opts net now cache hmiss
      (by rw [hret]; exact hfail)
    rw [h]
    simp [hret]
  · have h := request_all_fail (AdvancedApiClient.mkDefault b) endpoint2 {}
      net2 now2 cache2 hmiss2 hfail2
    rw [h]
    rfl

/-- Witness for C10: a client built with `maxRetries = 2` gives 3 attempts
when `retries` is omitted; a default-constructed client gives 4. -/
theorem request_option_defaults_witness :
    ((⟨"https://u", 5000, 2⟩ : AdvancedApiClient).request "/a"
        { useCache := none } (fun _ => .fetchError "boom") 0
        ⟨[], 300000⟩) =
      ((⟨"https://u", 5000, 2⟩ : AdvancedApiClient).request "/a"
        { useCache := some true } (fun _ => .fetchError "boom") 0
        ⟨[], 300000⟩) ∧
    ((⟨"https://u", 5000, 2⟩ : AdvancedApiClient).request "/a" {}
        (fun _ => .fetchError "boom") 0 ⟨[], 300000⟩).attempts = 3 ∧
    (AdvancedApiClient.mkDefault "https://u").maxRetries = 3 ∧
    ((AdvancedApiClient.mkDefault "https://u").request "/b" {}
        (fun _ => .fetchError "boom") 0 ⟨[], 300000⟩).attempts = 4 := by
  have h := request_option_defaults (⟨"https://u", 5000, 2⟩ : AdvancedApiClient)
    "/a" "/b" {} (fun _ => .fetchError "boom") (fun _ => .fetchError "boom")
    0 0 ⟨[], 300000⟩ ⟨[], 300000⟩ "https://u" rfl rfl
    (fun _ _ => (by decide : retryableFail (FetchResult.fetchError "boom") = true))
    rfl
    (fun _ _ => (by decide : retryableFail (FetchResult.fetchError "boom") = true))
  exact ⟨h.1, h.2.1, h.2.2.1, h.2.2.2⟩

/-- The cache state handed back by `get` always keeps the configured ttl. -/
theorem SimpleCache.ttl_get_snd {T : Type} (c : SimpleCache T) (k : String)
    (t : Nat) : ((SimpleCache.get c k t).2).ttl = c.ttl := by
  unfold SimpleCache.get
  split
  · rfl
  · split <;> rfl

/-- C4 counterexample: with `useCache = true` and a non-POST method, a first
call whose attempt succeeds with status 201 (a success, since `response.ok`
holds, but not status 200) stores nothing; the second identical call within
`ttl` performs a network attempt (1, not 0) and returns whatever the network
now answers, not the first call's value. -/
theorem second_call_refetches_after_201 :
    ((AdvancedApiClient.mkDefault "https://x").request "/p" {}
        (fun _ => .response 201 "Created" ⟨"v1", true⟩) 0 ⟨[], 300000⟩).outcome =
      .ok ⟨"v1", true⟩ ∧
    ((AdvancedApiClient.mkDefault "https://x").request "/p" {}
        (fun _ => .response 201 "Created" ⟨"v2", true⟩) 1
        ((AdvancedApiClient.mkDefault "https://x").request "/p" {}
          (fun _ => .response 201 "Created" ⟨"v1", true⟩) 0
          ⟨[], 300000⟩).finalCache).attempts = 1 ∧
    ((AdvancedApiClient.mkDefault "https://x").request "/p" {}
        (fun _ => .response 201 "Created" ⟨"v2", true⟩) 1
        ((AdvancedApiClient.mkDefault "https://x").request "/p" {}
          (fun _ => .response 201 "Created" ⟨"v1", true⟩) 0
          ⟨[], 300000⟩).finalCache).outcome = .ok ⟨"v2", true⟩ := by
  exact ⟨by decide, by decide, by decide⟩

/-- C4 (amended): the cache key is a deterministic function of the endpoint
and the non-cache-control options (the cache-control fields do not affect
it); with caching in force a consult that finds a truthy stored value
returns it with zero network attempts, while a stored falsy value fails the
`if (cached)` truthiness test and is re-fetched with a network attempt; and
for two sequential identical calls where the first succeeds with status
exactly 200 and a truthy decoded value, the second call within `ttl` returns
the same value with zero network attempts. -/
theorem cache_hit_roundtrip (client : AdvancedApiClient) (endpoint : String)
    (opts : ReqOptions) (net net2 : Nat → FetchResult) (now now2 : Nat)
    (cache : SimpleCache JsonValue) (body : JsonValue)
    (hu : opts.useCache.getD true = true) (hm : opts.method ≠ some "POST")
    (hmiss : (SimpleCache.get cache (cacheKeyOf client endpoint opts) now).1 = none)
    (hnet : classify (net 0) = .success 200 body)
    (htr : body.truthy = true)
    (httl : now2 - now ≤ cache.ttl) :
    (∀ u r, cacheKeyOf client endpoint
        { opts with useCache := u, retries := r } =
      cacheKeyOf client endpoint opts) ∧
    (∀ (net3 : Nat → FetchResult) (now3 : Nat)
        (cacheH cacheH' : SimpleCache JsonValue) (v : JsonValue),
      SimpleCache.get cacheH (cacheKeyOf client endpoint opts) now3 =
        (some v, cacheH') →
      v.truthy = true →
      client.request endpoint opts net3 now3 cacheH =
        { outcome := .ok v, attempts := 0, delays := [],
          finalCache := cacheH' }) ∧
    (∀ (net3 : Nat → FetchResult) (now3 : Nat)
        (cacheH cacheH' : SimpleCache JsonValue) (v body3 : JsonValue)
        (status3 : Nat),
      SimpleCache.get cacheH (cacheKeyOf client endpoint opts) now3 =
        (some v, cacheH') →
      v.truthy = false →
      classify (net3 0) = .success status3 body3 →
      (client.request endpoint opts net3 now3 cacheH).attempts = 1) ∧
    (client.request endpoint opts net now cache).outcome = .ok body ∧
    (client.request endpoint opts net2 now2
        (client.request endpoint opts net now cache).finalCache).outcome =
      .ok body ∧
    (client.request endpoint opts net2 now2
        (client.request endpoint opts net now cache).finalCache).attempts
      = 0 := by
  have hcond : (opts.useCache.getD true && opts.method != some "POST") = true := by
    simp [hu, bne_iff_ne, hm]
  have h1 := request_first_success client endpoint opts net now cache 200 body
    hmiss hnet
  have hwrite : (opts.useCache.getD true && ((200 : Nat) == 200)) = true := by
    simp [hu]
  have hfc : (client.request endpoint opts net now cache).finalCache =
      SimpleCache.set
        ((SimpleCache.get cache (cacheKeyOf client endpoint opts) now).2)
        (cacheKeyOf client endpoint opts) body now := by
    rw [h1]
    dsimp only
    rw [if_pos hwrite, if_pos hcond]
  have hfresh := SimpleCache.get_set_fresh
    ((SimpleCache.get cache (cacheKeyOf client endpoint opts) now).2)
    (cacheKeyOf client endpoint opts) body now now2
    (by rw [SimpleCache.ttl_get_snd]; exact httl)
  have h2 := request_cache_hit client endpoint opts net2 now2 _ _ body hu hm
    hfresh htr
  refine ⟨fun u r => by cases opts; rfl,
    fun net3 now3 cacheH cacheH' v hget hv =>
      request_cache_hit client endpoint opts net3 now3 cacheH cacheH' v hu hm
        hget hv,
    fun net3 now3 cacheH cacheH' v body3 status3 hget hv hc => by
      rw [request_falsy_hit client endpoint opts net3 now3 cacheH cacheH' v
        status3 body3 hu hm hget hv hc],
    by rw [h1], ?_, ?_⟩
  · rw [hfc, h2]
  · rw [hfc, h2]

/-- Witness for the amended C4: a 200 first call followed by an identical
call one minute later (within the 5-minute ttl) against a dead network still
returns the first value with zero attempts. -/
theorem cache_hit_roundtrip_witness :
    ((AdvancedApiClient.mkDefault "https://pokeapi.co/api/v2").request
        "/pokemon/ditto" {} (fun _ => .response 200 "OK" ⟨"ditto-json", true⟩) 0
        ⟨[], 300000⟩).outcome = .ok ⟨"ditto-json", true⟩ ∧
    ((AdvancedApiClient.mkDefault "https://pokeapi.co/api/v2").request
        "/pokemon/ditto" {} (fun _ => .fetchError "net down") 60000
        ((AdvancedApiClient.mkDefault "https://pokeapi.co/api/v2").request
          "/pokemon/ditto" {} (fun _ => .response 200 "OK" ⟨"ditto-json", true⟩) 0
          ⟨[], 300000⟩).finalCache).outcome = .ok ⟨"ditto-json", true⟩ ∧
    ((AdvancedApiClient.mkDefault "https://pokeapi.co/api/v2").request
        "/pokemon/ditto" {} (fun _ => .fetchError "net down") 60000
        ((AdvancedApiClient.mkDefault "https://pokeapi.co/api/v2").request
          "/pokemon/ditto" {} (fun _ => .response 200 "OK" ⟨"ditto-json", true⟩) 0
          ⟨[], 300000⟩).finalCache).attempts = 0 := by
  have h := cache_hit_roundtrip
    (AdvancedApiClient.mkDefault "https://pokeapi.co/api/v2") "/pokemon/ditto"
    {} (fun _ => .response 200 "OK" ⟨"ditto-json", true⟩) (fun _ => .fetchError "net down")
    0 60000 ⟨[], 300000⟩ ⟨"ditto-json", true⟩ rfl (by decide) rfl rfl rfl
    (by decide)
  exact ⟨h.2.2.2.1, h.2.2.2.2.1, h.2.2.2.2.2⟩

/-- C5 counterexample: a POST request with `useCache = true` whose attempt
succeeds with status 200 IS written to the cache although the method is
mutating — the claim's "only if the method is not a mutating one" fails on
the code, whose write test is `useCache && response.status === 200` with no
method check. -/
theorem post_success_is_cached :
    (((AdvancedApiClient.mkDefault "https://x").request "/p"
        { method := some "POST", useCache := some true }
        (fun _ => .response 200 "OK" ⟨"v", true⟩) 0
        ⟨[], 300000⟩).finalCache).cache.lookup
      (cacheKeyOf (AdvancedApiClient.mkDefault "https://x") "/p"
        { method := some "POST", useCache := some true }) = some (⟨"v", true⟩, 0) := by
  decide

/-- C5 (amended): on a first-attempt success the decoded body is returned,
and it is written to the cache under the computed key iff `useCache`
(resolved) is true and the status is exactly 200; the method is not
consulted for the write decision (it only gates the earlier cache read). -/
theorem success_cache_write_iff (client : AdvancedApiClient)
    (endpoint : String) (opts : ReqOptions) (net : Nat → FetchResult)
    (now : Nat) (cache : SimpleCache JsonValue) (status : Nat) (body : JsonValue)
    (hmiss : (SimpleCache.get cache (cacheKeyOf client endpoint opts) now).1 = none)
    (hc : classify (net 0) = .success status body) :
    (client.request endpoint opts net now cache).outcome = .ok body ∧
    (client.request endpoint opts net now cache).finalCache =
      (if (opts.useCache.getD true && status == 200) = true then
        SimpleCache.set
          (if (opts.useCache.getD true && opts.method != some "POST") = true
           then (SimpleCache.get cache (cacheKeyOf client endpoint opts) now).2
           else cache)
          (cacheKeyOf client endpoint opts) body now
       else
        (if (opts.useCache.getD true && opts.method != some "POST") = true
         then (SimpleCache.get cache (cacheKeyOf client endpoint opts) now).2
         else cache)) := by
  rw [request_first_success client endpoint opts net now cache status body
    hmiss hc]
  exact ⟨rfl, rfl⟩

/-- Witness for the amended C5: a default (GET) 200 response is returned and
written to the cache under the computed key. -/
theorem success_cache_write_iff_witness :
    ((AdvancedApiClient.mkDefault "https://x").request "/p" {}
        (fun _ => .response 200 "OK" ⟨"v", true⟩) 0 ⟨[], 300000⟩).outcome = .ok ⟨"v", true⟩ ∧
    ((AdvancedApiClient.mkDefault "https://x").request "/p" {}
        (fun _ => .response 200 "OK" ⟨"v", true⟩) 0 ⟨[], 300000⟩).finalCache =
      SimpleCache.set ⟨[], 300000⟩
        (cacheKeyOf (AdvancedApiClient.mkDefault "https://x") "/p" {}) ⟨"v", true⟩ 0 := by
  have h := success_cache_write_iff (AdvancedApiClient.mkDefault "https://x")
    "/p" {} (fun _ => .response 200 "OK" ⟨"v", true⟩) 0 ⟨[], 300000⟩ 200 ⟨"v", true⟩ rfl rfl
  exact ⟨h.1, h.2⟩
